import Mathlib

/-!
Verification of the GPUI modal-dialog tutorial application (`src/main.rs`).

The application is shallowly embedded as follows:

* GPUI `Pixels` values (`px(…)`, an `f32` wrapper) are modelled as `ℚ`.
  Every pixel quantity in the program is a small literal or a difference /
  half of such literals, all of which `f32` represents exactly, so rational
  arithmetic agrees with the source arithmetic on every input considered.
* The element-builder chains of the two `render` methods become a concrete
  inductive `Element` tree: each chained builder method appends one `Attr`
  (or one child) in source order.
* Event handlers (`&mut self` methods receiving an event, a `&mut Window`
  and a `Context`) become functions returning the updated component, the
  updated window, and the list of `Command`s issued to the context; the
  only command any handler issues is `Command.quit` (from `cx.quit()`).
* `main`'s bootstrap becomes `bootstrap`, a function from the enumerated
  display list and a per-call window-creation oracle to the ordered trace
  of attempted `open_window` calls together with the outcome
  (`ok` / fatal panic), mirroring `displays.first().unwrap()` and the two
  `open_window(..).unwrap()` calls.
-/

/-- Pixel quantity (GPUI `Pixels`, constructed by `px(…)`), modelled as ℚ. -/
abbrev Pixels := ℚ

/-- GPUI `px(value)`. -/
def px (v : ℚ) : Pixels := v

/-- A point: `point(x, y)` in the source. -/
structure GPoint where
  x : Pixels
  y : Pixels
deriving DecidableEq, Repr

/-- GPUI `point(x, y)`. -/
def point (x y : Pixels) : GPoint := ⟨x, y⟩

/-- A size with width and height, as in `display.bounds().size`. -/
structure GSize where
  width : Pixels
  height : Pixels
deriving DecidableEq, Repr

/-- GPUI `size(w, h)`. -/
def size (w h : Pixels) : GSize := ⟨w, h⟩

/-- A rectangle: origin plus size (GPUI `Bounds`). -/
structure GBounds where
  origin : GPoint
  size : GSize
deriving DecidableEq, Repr

/-- GPUI `WindowBounds`; the source only uses the `Windowed` constructor. -/
inductive WindowBounds where
  | windowed (bounds : GBounds)
  | maximized (bounds : GBounds)
  | fullscreen (bounds : GBounds)
deriving DecidableEq, Repr

/-- GPUI `WindowKind`; the source only uses `PopUp`. -/
inductive WindowKind where
  | normal
  | popUp
deriving DecidableEq, Repr

/-- GPUI `WindowBackgroundAppearance`. -/
inductive WindowBackgroundAppearance where
  | opaque'
  | transparent
  | blurred
deriving DecidableEq, Repr

/-- Identifier of a connected display (GPUI `DisplayId`). -/
abbrev DisplayId := ℕ

/-- A connected display as observed through `cx.displays()`:
its identifier and its bounds. -/
structure Display where
  id : DisplayId
  bounds : GBounds
deriving DecidableEq, Repr

/-- Which root component a window is created with
(the factory argument of `open_window`). -/
inductive RootComponent where
  | backdrop
  | dialogBox
deriving DecidableEq, Repr

/-- The `WindowOptions` fields that `main` sets explicitly, plus the root
component produced by the window's factory closure.  The remaining GPUI
fields are taken from `Default::default()` and never read by the program. -/
structure WindowOptions where
  window_bounds : Option WindowBounds
  titlebar : Option Unit
  focus : Bool
  show' : Bool
  kind : WindowKind
  is_movable : Bool
  display_id : Option DisplayId
  window_background : WindowBackgroundAppearance
  root : RootComponent
deriving DecidableEq, Repr

/-- Options of the backdrop window exactly as `main` builds them:
full-screen bounds `(0,0)`–`screen_size`, no titlebar, unfocused, shown,
popup kind, not movable, on the primary display, transparent background. -/
def backdropOptions (display : Display) : WindowOptions :=
  let screen_size := display.bounds.size
  { window_bounds := some (WindowBounds.windowed
      { origin := point (px 0) (px 0)
        size := screen_size })
    titlebar := none
    focus := false
    show' := true
    kind := WindowKind.popUp
    is_movable := false
    display_id := some display.id
    window_background := WindowBackgroundAppearance.transparent
    root := RootComponent.backdrop }

/-- Dialog width constant from `main`: `px(460.0)`. -/
def dialog_width : Pixels := px 460

/-- Dialog height constant from `main`: `px(180.0)`. -/
def dialog_height : Pixels := px 180

/-- The centered dialog bounds exactly as `main` computes them:
`x = (screen_size.width - dialog_width) / 2.0`,
`y = (screen_size.height - dialog_height) / 2.0`. -/
def dialogBoundsOf (screen_size : GSize) : GBounds :=
  let x := (screen_size.width - dialog_width) / 2
  let y := (screen_size.height - dialog_height) / 2
  { origin := point x y
    size := size dialog_width dialog_height }

/-- Options of the dialog window exactly as `main` builds them:
centered bounds, no titlebar, focused, shown, popup kind, not movable,
on the primary display, transparent background. -/
def dialogOptions (display : Display) : WindowOptions :=
  let screen_size := display.bounds.size
  { window_bounds := some (WindowBounds.windowed (dialogBoundsOf screen_size))
    titlebar := none
    focus := true
    show' := true
    kind := WindowKind.popUp
    is_movable := false
    display_id := some display.id
    window_background := WindowBackgroundAppearance.transparent
    root := RootComponent.dialogBox }

/-- Outcome of the bootstrap closure passed to `Application::run`. -/
inductive BootOutcome where
  | ok
  | panicNoDisplay
  | panicCreateFailed
deriving DecidableEq, Repr

/-- Result of the bootstrap: the ordered trace of `open_window` calls that
were attempted, and the outcome. -/
structure BootResult where
  calls : List WindowOptions
  outcome : BootOutcome
deriving DecidableEq, Repr

/-- The bootstrap closure of `main`, embedded over the enumerated display
list and a window-creation oracle (`create i` tells whether the i-th
`open_window` call succeeds).  Mirrors the source control flow:
`displays.first().unwrap()` panics on an empty list before any window is
created; each `open_window(..).unwrap()` panics right after a failing
call, so a failure of the backdrop call prevents the dialog call. -/
def bootstrap (displays : List Display) (create : ℕ → Bool) : BootResult :=
  match displays with
  | [] => { calls := [], outcome := BootOutcome.panicNoDisplay }
  | display :: _ =>
    let backdropOpts := backdropOptions display
    if create 0 then
      let dialogOpts := dialogOptions display
      if create 1 then
        { calls := [backdropOpts, dialogOpts], outcome := BootOutcome.ok }
      else
        { calls := [backdropOpts, dialogOpts], outcome := BootOutcome.panicCreateFailed }
    else
      { calls := [backdropOpts], outcome := BootOutcome.panicCreateFailed }

/-- A color, built by `rgb(0xRRGGBB)` or `hsla(h, s, l, a)` in the source. -/
inductive GColor where
  | rgbHex (hex : ℕ)
  | hslaVal (h s l a : ℚ)
deriving DecidableEq, Repr

/-- GPUI `rgb(hex)`: an opaque RGB color. -/
def rgb (hex : ℕ) : GColor := GColor.rgbHex hex

/-- GPUI `hsla(hue, saturation, lightness, alpha)`. -/
def hsla (h s l a : ℚ) : GColor := GColor.hslaVal h s l a

/-- GPUI `FontWeight`; the source only uses `FontWeight::NORMAL`. -/
structure FontWeight where
  weight : ℚ
deriving DecidableEq, Repr

/-- The `FontWeight::NORMAL` constant (weight 400). -/
def FontWeight.NORMAL : FontWeight := { weight := 400 }

/-- GPUI `relative(v)`: a length relative to the parent
(used for line height). -/
def relative (v : ℚ) : ℚ := v

/-- Mouse buttons (GPUI `MouseButton`); `Left` is the primary button. -/
inductive MouseButton where
  | left
  | right
  | middle
deriving DecidableEq, Repr

/-- Names of the `DialogBox` mouse-event handler methods that
`cx.listener` can wrap for `.on_mouse_up`. -/
inductive MouseListener where
  | onOkClicked
  | onCancelClicked
deriving DecidableEq, Repr

/-- Names of the `DialogBox` key-event handler methods that
`cx.listener` can wrap for `.on_key_down`. -/
inductive KeyListener where
  | onEscape
deriving DecidableEq, Repr

/-- One chained element-builder call.  Each builder method of the source
(`.flex()`, `.bg(..)`, `.on_mouse_up(..)`, ...) appends one `Attr`.
`on_key_down` carries no key argument, exactly as in the source API: the
listener is registered for every key-down event, with no key filter. -/
inductive Attr where
  | size_full
  | flex
  | flex_col
  | flex_1
  | justify_center
  | justify_end
  | items_center
  | w (v : Pixels)
  | h (v : Pixels)
  | w_full
  | h_full
  | min_w (v : Pixels)
  | bg (c : GColor)
  | border_1
  | border_b_1
  | border_color (c : GColor)
  | rounded (r : Pixels)
  | rounded_full
  | shadow_lg
  | shadow_sm
  | overflow_hidden
  | px_3
  | px_6
  | py_4
  | py_5
  | gap_2
  | gap_3
  | mt_3
  | text_size (v : Pixels)
  | text_color (c : GColor)
  | font_weight (w : FontWeight)
  | line_height (v : ℚ)
  | cursor_pointer
  | hover_bg (c : GColor)
  | on_mouse_up (button : MouseButton) (listener : MouseListener)
  | on_key_down (listener : KeyListener)
deriving DecidableEq, Repr

/-- An element tree: a container (`div()`) with its accumulated builder
attributes and children, or a text leaf (a string child). -/
inductive Element where
  | el (attrs : List Attr) (children : List Element)
  | text (s : String)
deriving Repr

instance : Inhabited Element := ⟨Element.text ""⟩

/-- GPUI `div()`: a fresh container element. -/
def div : Element := Element.el [] []

/-- Append one builder attribute (a chained builder-method call). -/
def Element.addAttr (e : Element) (a : Attr) : Element :=
  match e with
  | Element.el attrs children => Element.el (attrs ++ [a]) children
  | Element.text s => Element.text s

/-- GPUI `.child(element)`: append a child element. -/
def Element.child (e : Element) (c : Element) : Element :=
  match e with
  | Element.el attrs children => Element.el attrs (children ++ [c])
  | Element.text s => Element.text s

/-- GPUI `.child("...")`: append a string child. -/
def Element.childText (e : Element) (s : String) : Element :=
  e.child (Element.text s)

/-- The attributes of an element (empty for a text leaf). -/
def Element.attrs (e : Element) : List Attr :=
  match e with
  | Element.el attrs _ => attrs
  | Element.text _ => []

/-- The children of an element (empty for a text leaf). -/
def Element.children (e : Element) : List Element :=
  match e with
  | Element.el _ children => children
  | Element.text _ => []

/-- The i-th child of an element (an empty text leaf when out of range). -/
def Element.childAt (e : Element) (i : ℕ) : Element :=
  e.children.getD i default

/-- GPUI `.size_full()`. -/
def Element.size_full (e : Element) : Element := e.addAttr Attr.size_full

/-- GPUI `.flex()`. -/
def Element.flex (e : Element) : Element := e.addAttr Attr.flex

/-- GPUI `.flex_col()`. -/
def Element.flex_col (e : Element) : Element := e.addAttr Attr.flex_col

/-- GPUI `.flex_1()`. -/
def Element.flex_1 (e : Element) : Element := e.addAttr Attr.flex_1

/-- GPUI `.justify_center()`. -/
def Element.justify_center (e : Element) : Element := e.addAttr Attr.justify_center

/-- GPUI `.justify_end()`. -/
def Element.justify_end (e : Element) : Element := e.addAttr Attr.justify_end

/-- GPUI `.items_center()`. -/
def Element.items_center (e : Element) : Element := e.addAttr Attr.items_center

/-- GPUI `.w(v)`. -/
def Element.w (e : Element) (v : Pixels) : Element := e.addAttr (Attr.w v)

/-- GPUI `.h(v)`. -/
def Element.h (e : Element) (v : Pixels) : Element := e.addAttr (Attr.h v)

/-- GPUI `.w_full()`. -/
def Element.w_full (e : Element) : Element := e.addAttr Attr.w_full

/-- GPUI `.h_full()`. -/
def Element.h_full (e : Element) : Element := e.addAttr Attr.h_full

/-- GPUI `.min_w(v)`. -/
def Element.min_w (e : Element) (v : Pixels) : Element := e.addAttr (Attr.min_w v)

/-- GPUI `.bg(color)`. -/
def Element.bg (e : Element) (c : GColor) : Element := e.addAttr (Attr.bg c)

/-- GPUI `.border_1()`. -/
def Element.border_1 (e : Element) : Element := e.addAttr Attr.border_1

/-- GPUI `.border_b_1()`. -/
def Element.border_b_1 (e : Element) : Element := e.addAttr Attr.border_b_1

/-- GPUI `.border_color(color)`. -/
def Element.border_color (e : Element) (c : GColor) : Element :=
  e.addAttr (Attr.border_color c)

/-- GPUI `.rounded(radius)`. -/
def Element.rounded (e : Element) (r : Pixels) : Element := e.addAttr (Attr.rounded r)

/-- GPUI `.rounded_full()`. -/
def Element.rounded_full (e : Element) : Element := e.addAttr Attr.rounded_full

/-- GPUI `.shadow_lg()`. -/
def Element.shadow_lg (e : Element) : Element := e.addAttr Attr.shadow_lg

/-- GPUI `.shadow_sm()`. -/
def Element.shadow_sm (e : Element) : Element := e.addAttr Attr.shadow_sm

/-- GPUI `.overflow_hidden()`. -/
def Element.overflow_hidden (e : Element) : Element := e.addAttr Attr.overflow_hidden

/-- GPUI `.px_3()` (12px horizontal padding). -/
def Element.px_3 (e : Element) : Element := e.addAttr Attr.px_3

/-- GPUI `.px_6()` (24px horizontal padding). -/
def Element.px_6 (e : Element) : Element := e.addAttr Attr.px_6

/-- GPUI `.py_4()` (16px vertical padding). -/
def Element.py_4 (e : Element) : Element := e.addAttr Attr.py_4

/-- GPUI `.py_5()` (20px vertical padding). -/
def Element.py_5 (e : Element) : Element := e.addAttr Attr.py_5

/-- GPUI `.gap_2()` (8px gap). -/
def Element.gap_2 (e : Element) : Element := e.addAttr Attr.gap_2

/-- GPUI `.gap_3()` (12px gap). -/
def Element.gap_3 (e : Element) : Element := e.addAttr Attr.gap_3

/-- GPUI `.mt_3()` (12px top margin). -/
def Element.mt_3 (e : Element) : Element := e.addAttr Attr.mt_3

/-- GPUI `.text_size(v)`. -/
def Element.text_size (e : Element) (v : Pixels) : Element :=
  e.addAttr (Attr.text_size v)

/-- GPUI `.text_color(color)`. -/
def Element.text_color (e : Element) (c : GColor) : Element :=
  e.addAttr (Attr.text_color c)

/-- GPUI `.font_weight(w)`. -/
def Element.font_weight (e : Element) (w : FontWeight) : Element :=
  e.addAttr (Attr.font_weight w)

/-- GPUI `.line_height(v)`. -/
def Element.line_height (e : Element) (v : ℚ) : Element :=
  e.addAttr (Attr.line_height v)

/-- GPUI `.cursor_pointer()`. -/
def Element.cursor_pointer (e : Element) : Element := e.addAttr Attr.cursor_pointer

/-- GPUI `.hover(|style| style.bg(color))`: the source only ever uses the
hover closure to set a background color, embedded as that color. -/
def Element.hover (e : Element) (c : GColor) : Element := e.addAttr (Attr.hover_bg c)

/-- GPUI `.on_mouse_up(button, listener)`: register a handler for a
release of the given mouse button inside this element's hit-region. -/
def Element.on_mouse_up (e : Element) (button : MouseButton)
    (listener : MouseListener) : Element :=
  e.addAttr (Attr.on_mouse_up button listener)

/-- GPUI `.on_key_down(listener)`: register a handler for key-down events
within the element's focus scope.  The source API takes no key argument:
the listener is invoked for every key-down event, whatever the key. -/
def Element.on_key_down (e : Element) (listener : KeyListener) : Element :=
  e.addAttr (Attr.on_key_down listener)

/-- A GPUI window, opaque to the application: neither `render` method nor
any handler reads or writes it (`_window` / `_: &mut Window`). -/
structure Window where
  handle : ℕ
deriving DecidableEq, Repr

/-- The GPUI component context, opaque app-level state.  `render` uses it
only through `listener`, and handlers only through `quit`. -/
structure Context where
  token : ℕ
deriving DecidableEq, Repr

/-- GPUI `cx.listener(method)`: wrap a component method as an event
listener.  Pure: the wrapped listener is determined by the method alone. -/
def Context.listener {α : Type} (_cx : Context) (method : α) : α := method

/-- A command a handler can issue to the app context; the only one any
handler of this program issues is `quit` (from `cx.quit()`). -/
inductive Command where
  | quit
deriving DecidableEq, Repr

/-- A mouse-button release event (GPUI `MouseUpEvent`). -/
structure MouseUpEvent where
  button : MouseButton
  positionX : Pixels
  positionY : Pixels
deriving DecidableEq, Repr

/-- A key-down event (GPUI `KeyDownEvent`), carrying the pressed key. -/
structure KeyDownEvent where
  key : String
deriving DecidableEq, Repr

/-- The `Backdrop` component: `struct Backdrop;`, no fields. -/
structure Backdrop
deriving DecidableEq, Repr

/-- The `DialogBox` component: `struct DialogBox;`, no fields. -/
structure DialogBox
deriving DecidableEq, Repr

/-- Handler `DialogBox::on_ok_clicked`: the body is `cx.quit();`.  The
`&mut self` / `&mut Window` parameters come back unchanged and the single
command `quit` is issued to the context; the event is ignored. -/
def DialogBox.on_ok_clicked (self : DialogBox) (_ : MouseUpEvent)
    (window : Window) : DialogBox × Window × List Command :=
  (self, window, [Command.quit])

/-- Handler `DialogBox::on_cancel_clicked`: the body is `cx.quit();`. -/
def DialogBox.on_cancel_clicked (self : DialogBox) (_ : MouseUpEvent)
    (window : Window) : DialogBox × Window × List Command :=
  (self, window, [Command.quit])

/-- Handler `DialogBox::on_escape`: the body is `cx.quit();`.  Note that
the body never inspects the `KeyDownEvent`. -/
def DialogBox.on_escape (self : DialogBox) (_ : KeyDownEvent)
    (window : Window) : DialogBox × Window × List Command :=
  (self, window, [Command.quit])

/-- `Backdrop`'s `Render::render`: a full-size container with a
semi-transparent black background.  The window and context parameters are
unused (`_window`, `_cx`). -/
def Backdrop.render (_self : Backdrop) (_window : Window) (_cx : Context) :
    Element :=
  div
    |>.size_full
    |>.bg (hsla 0.0 0.0 0.0 0.3)

/-- `DialogBox`'s `Render::render`, transcribed builder call by builder
call from the source: outer centering container → dialog container →
[titlebar with red/yellow/green glyphs] and [content area with message
text and the Cancel/OK button row].  Only the red glyph, the Cancel
button and the OK button carry mouse listeners; the outer container
carries the single key-down listener. -/
def DialogBox.render (_self : DialogBox) (_window : Window) (cx : Context) :
    Element :=
  div
    |>.flex
    |>.size_full
    |>.justify_center
    |>.items_center
    |>.on_key_down (cx.listener KeyListener.onEscape)
    |>.child
      (div
        |>.flex
        |>.flex_col
        |>.rounded (px 10.0)
        |>.shadow_lg
        |>.overflow_hidden
        |>.w_full
        |>.h_full
        |>.child
          (div
            |>.flex
            |>.items_center
            |>.h (px 22.0)
            |>.w_full
            |>.bg (rgb 0xE8E8E8)
            |>.border_b_1
            |>.border_color (rgb 0xD0D0D0)
            |>.px_3
            |>.gap_2
            |>.child
              (div
                |>.w (px 12.0)
                |>.h (px 12.0)
                |>.rounded_full
                |>.bg (rgb 0xFF5F57)
                |>.border_1
                |>.border_color (rgb 0xE04943)
                |>.cursor_pointer
                |>.on_mouse_up MouseButton.left
                    (cx.listener MouseListener.onCancelClicked))
            |>.child
              (div
                |>.w (px 12.0)
                |>.h (px 12.0)
                |>.rounded_full
                |>.bg (rgb 0xFFBD2E)
                |>.border_1
                |>.border_color (rgb 0xDEA123))
            |>.child
              (div
                |>.w (px 12.0)
                |>.h (px 12.0)
                |>.rounded_full
                |>.bg (rgb 0x28C940)
                |>.border_1
                |>.border_color (rgb 0x1AAB29)))
        |>.child
          (div
            |>.flex
            |>.flex_col
            |>.bg (rgb 0xEFEFEF)
            |>.flex_1
            |>.px_6
            |>.py_5
            |>.child
              (div
                |>.flex
                |>.flex_1
                |>.items_center
                |>.px_3
                |>.py_4
                |>.child
                  (div
                    |>.text_size (px 13.0)
                    |>.text_color (rgb 0x000000)
                    |>.font_weight FontWeight.NORMAL
                    |>.line_height (relative 1.4)
                    |>.childText "Hello world!"))
            |>.child
              (div
                |>.flex
                |>.gap_3
                |>.justify_end
                |>.w_full
                |>.mt_3
                |>.child
                  (div
                    |>.flex
                    |>.items_center
                    |>.justify_center
                    |>.px_6
                    |>.h (px 32.0)
                    |>.min_w (px 90.0)
                    |>.bg (rgb 0xFFFFFF)
                    |>.text_color (rgb 0x000000)
                    |>.text_size (px 13.0)
                    |>.font_weight FontWeight.NORMAL
                    |>.rounded (px 6.0)
                    |>.border_1
                    |>.border_color (rgb 0xB8B8B8)
                    |>.cursor_pointer
                    |>.shadow_sm
                    |>.hover (rgb 0xF8F8F8)
                    |>.on_mouse_up MouseButton.left
                        (cx.listener MouseListener.onCancelClicked)
                    |>.childText "Cancel")
                |>.child
                  (div
                    |>.flex
                    |>.items_center
                    |>.justify_center
                    |>.px_6
                    |>.h (px 32.0)
                    |>.min_w (px 90.0)
                    |>.bg (rgb 0x007AFF)
                    |>.text_color (rgb 0xFFFFFF)
                    |>.text_size (px 13.0)
                    |>.font_weight FontWeight.NORMAL
                    |>.rounded (px 6.0)
                    |>.cursor_pointer
                    |>.shadow_sm
                    |>.hover (rgb 0x0068DB)
                    |>.on_mouse_up MouseButton.left
                        (cx.listener MouseListener.onOkClicked)
                    |>.childText "Ok"))))

/-- Invoke the `DialogBox` method wrapped by a key listener. -/
def KeyListener.run (l : KeyListener) (self : DialogBox) (ev : KeyDownEvent)
    (window : Window) : DialogBox × Window × List Command :=
  match l with
  | KeyListener.onEscape => DialogBox.on_escape self ev window

/-- Invoke the `DialogBox` method wrapped by a mouse listener. -/
def MouseListener.run (l : MouseListener) (self : DialogBox)
    (ev : MouseUpEvent) (window : Window) :
    DialogBox × Window × List Command :=
  match l with
  | MouseListener.onOkClicked => DialogBox.on_ok_clicked self ev window
  | MouseListener.onCancelClicked => DialogBox.on_cancel_clicked self ev window

/-- The key-down listeners registered on an element itself
(by `.on_key_down(..)` calls in its builder chain). -/
def Element.keyDownListeners (e : Element) : List KeyListener :=
  e.attrs.filterMap (fun a =>
    match a with
    | Attr.on_key_down l => some l
    | _ => none)

/-- The (button, listener) pairs registered on an element itself
(by `.on_mouse_up(button, ..)` calls in its builder chain). -/
def Element.mouseUpListeners (e : Element) : List (MouseButton × MouseListener) :=
  e.attrs.filterMap (fun a =>
    match a with
    | Attr.on_mouse_up b l => some (b, l)
    | _ => none)

/-- Framework dispatch of a key-down event to the listeners an element
registered with `.on_key_down`: every such listener is invoked for every
key-down event within the element's focus scope — the registration API
(as used in the source) attaches no key filter, and the listener receives
the event to inspect if it wishes. -/
def Element.dispatchKeyDown (e : Element) (self : DialogBox)
    (ev : KeyDownEvent) (window : Window) :
    DialogBox × Window × List Command :=
  e.keyDownListeners.foldl
    (fun acc l =>
      let r := KeyListener.run l acc.1 ev acc.2.1
      (r.1, r.2.1, acc.2.2 ++ r.2.2))
    (self, window, [])

/-- Framework dispatch of a mouse-button release inside an element's
hit-region: exactly the listeners registered for the released button are
invoked. -/
def Element.dispatchMouseUp (e : Element) (self : DialogBox)
    (ev : MouseUpEvent) (window : Window) :
    DialogBox × Window × List Command :=
  (e.mouseUpListeners.filter (fun p => p.1 == ev.button)).foldl
    (fun acc p =>
      let r := MouseListener.run p.2 acc.1 ev acc.2.1
      (r.1, r.2.1, acc.2.2 ++ r.2.2))
    (self, window, [])

/-- A fixed window value, for evaluating the constant handlers. -/
def sampleWindow : Window := { handle := 0 }

/-- A fixed context value, for evaluating the constant `render`. -/
def sampleContext : Context := { token := 0 }

/-- A fixed primary-button release event. -/
def sampleMouseUp : MouseUpEvent :=
  { button := MouseButton.left, positionX := 0, positionY := 0 }

/-- A fixed Escape key-down event. -/
def sampleKeyDown : KeyDownEvent := { key := "escape" }

/-- The element tree `DialogBox::render` produces (it is a constant:
proved below, it does not depend on self, window or context). -/
def dialogTree : Element := DialogBox.render ⟨⟩ sampleWindow sampleContext

/-- The two dismissal states of the dialog: the spec's implicit
state machine {Open, Closed}. -/
inductive DialogState where
  | Open
  | Closed
deriving DecidableEq, Repr

/-- The four user actions that can dismiss the dialog. -/
inductive Trigger where
  | okClick
  | cancelClick
  | closeGlyphClick
  | escapeKey
deriving DecidableEq, Repr

/-- The commands the handler bound to a trigger issues when invoked:
read off from the source handlers (which ignore their event and window
arguments, so fixed sample values lose nothing).  The red close glyph is
wired to `on_cancel_clicked`, like the Cancel button. -/
def Trigger.commands (t : Trigger) : List Command :=
  match t with
  | Trigger.okClick =>
    (DialogBox.on_ok_clicked ⟨⟩ sampleMouseUp sampleWindow).2.2
  | Trigger.cancelClick =>
    (DialogBox.on_cancel_clicked ⟨⟩ sampleMouseUp sampleWindow).2.2
  | Trigger.closeGlyphClick =>
    (DialogBox.on_cancel_clicked ⟨⟩ sampleMouseUp sampleWindow).2.2
  | Trigger.escapeKey =>
    (DialogBox.on_escape ⟨⟩ sampleKeyDown sampleWindow).2.2

/-- One step of the dismissal flow: in the `Open` state a trigger invokes
its handler, whose `quit` command ends the process (state `Closed`).
Modelled from the spec for the part outside `src/`: "Closed is terminal
(process exit)" — after process exit the framework dispatches no further
events, so a trigger in the `Closed` state invokes nothing and issues no
termination request.  Returns the next state and the number of
termination requests issued by the step. -/
def step (s : DialogState) (t : Trigger) : DialogState × ℕ :=
  match s with
  | DialogState.Open => (DialogState.Closed, t.commands.count Command.quit)
  | DialogState.Closed => (DialogState.Closed, 0)

/-- Run a finite sequence of triggers from a state, accumulating the
total number of termination requests issued. -/
def run : DialogState → List Trigger → DialogState × ℕ
  | s, [] => (s, 0)
  | s, t :: ts =>
    let r := step s t
    let rest := run r.1 ts
    (rest.1, r.2 + rest.2)

/-- The dialog-panel child of the rendered dialog tree
(the first child of the outer centering container). -/
def dialogPanel (t : Element) : Element := t.childAt 0

/-- The red decorative close glyph: first child of the titlebar,
which is the first child of the dialog panel. -/
def closeGlyphOf (t : Element) : Element :=
  ((dialogPanel t).childAt 0).childAt 0

/-- The action-button row: second child of the content area,
which is the second child of the dialog panel. -/
def buttonRowOf (t : Element) : Element :=
  ((dialogPanel t).childAt 1).childAt 1

/-- The Cancel button: first child of the action-button row. -/
def cancelButtonOf (t : Element) : Element := (buttonRowOf t).childAt 0

/-- The OK button: second child of the action-button row. -/
def okButtonOf (t : Element) : Element := (buttonRowOf t).childAt 1

/-- A 1920×1080 primary display. -/
def display1920 : Display :=
  { id := 0, bounds := { origin := point 0 0, size := size 1920 1080 } }

/-- A 320×100 primary display, smaller than the dialog in both axes. -/
def display320 : Display :=
  { id := 0, bounds := { origin := point 0 0, size := size 320 100 } }

/-- Helper: once the process has exited (state `Closed`), no sequence of
triggers changes the state or issues any further termination request. -/
theorem run_closed_absorbing (ts : List Trigger) :
    run DialogState.Closed ts = (DialogState.Closed, 0) := by
  induction ts with
  | nil => rfl
  | cons t ts ih => simp [run, step, ih]

/-- Helper: every trigger's handler issues exactly one `quit` command. -/
theorem trigger_commands_quit (t : Trigger) :
    t.commands.count Command.quit = 1 := by
  cases t <;> rfl

/-- C1: for every primary display of positive size (w, h), the bootstrap's
second window-creation call is the dialog window, with fixed size
460 × 180 and origin ((w − 460)/2, (h − 180)/2). -/
theorem dialog_placement_centered_c1 (display : Display) (rest : List Display)
    (_hw : 0 < display.bounds.size.width)
    (_hh : 0 < display.bounds.size.height) :
    (bootstrap (display :: rest) (fun _ => true)).calls.get? 1 =
      some (dialogOptions display) ∧
    (dialogOptions display).window_bounds =
      some (WindowBounds.windowed
        { origin := point ((display.bounds.size.width - 460) / 2)
                          ((display.bounds.size.height - 180) / 2)
          size := size 460 180 }) :=
  ⟨rfl, rfl⟩

/-- C1 witness: on a 1920×1080 primary display the computed dialog origin
is (730, 450) and the size is 460 × 180. -/
theorem dialog_placement_centered_c1_witness :
    (0 : ℚ) < 1920 ∧ (0 : ℚ) < 1080 ∧
    (bootstrap [display1920] (fun _ => true)).calls.get? 1 =
      some (dialogOptions display1920) ∧
    (dialogOptions display1920).window_bounds =
      some (WindowBounds.windowed
        { origin := point 730 450, size := size 460 180 }) := by
  have h := dialog_placement_centered_c1 display1920 []
    (by norm_num [display1920, size]) (by norm_num [display1920, size])
  refine ⟨by norm_num, by norm_num, h.1, ?_⟩
  rw [h.2]
  norm_num [display1920, point, size]

/-- C2: onOkClicked, onCancelClicked and onEscape are extensionally equal
— each leaves the component and window unchanged and issues exactly the
single termination request `quit`, and nothing else.  In the rendered
tree the OK button (text child "Ok") is wired to onOkClicked, while both
the Cancel button (text child "Cancel") and the red decorative close
glyph (background 0xFF5F57) are wired to onCancelClicked, all for a
primary-button (left) release; dispatching such a release on any of the
three yields the same single termination request. -/
theorem handlers_shutdown_identical_c2 :
    (∀ (d : DialogBox) (w : Window) (eM : MouseUpEvent) (eK : KeyDownEvent),
      DialogBox.on_ok_clicked d eM w = (d, w, [Command.quit]) ∧
      DialogBox.on_cancel_clicked d eM w = DialogBox.on_ok_clicked d eM w ∧
      DialogBox.on_escape d eK w = (d, w, [Command.quit])) ∧
    (okButtonOf dialogTree).children = [Element.text "Ok"] ∧
    (okButtonOf dialogTree).mouseUpListeners =
      [(MouseButton.left, MouseListener.onOkClicked)] ∧
    (cancelButtonOf dialogTree).children = [Element.text "Cancel"] ∧
    (cancelButtonOf dialogTree).mouseUpListeners =
      [(MouseButton.left, MouseListener.onCancelClicked)] ∧
    Attr.bg (rgb 0xFF5F57) ∈ (closeGlyphOf dialogTree).attrs ∧
    (closeGlyphOf dialogTree).mouseUpListeners =
      [(MouseButton.left, MouseListener.onCancelClicked)] ∧
    (∀ (d : DialogBox) (w : Window) (ev : MouseUpEvent),
      ev.button = MouseButton.left →
      (okButtonOf dialogTree).dispatchMouseUp d ev w =
        (d, w, [Command.quit]) ∧
      (cancelButtonOf dialogTree).dispatchMouseUp d ev w =
        (d, w, [Command.quit]) ∧
      (closeGlyphOf dialogTree).dispatchMouseUp d ev w =
        (d, w, [Command.quit])) := by
  refine ⟨fun d w eM eK => ⟨rfl, rfl, rfl⟩, rfl, rfl, rfl, rfl, by decide,
    rfl, ?_⟩
  intro d w ev h
  have hok : (okButtonOf dialogTree).mouseUpListeners =
      [(MouseButton.left, MouseListener.onOkClicked)] := rfl
  have hcancel : (cancelButtonOf dialogTree).mouseUpListeners =
      [(MouseButton.left, MouseListener.onCancelClicked)] := rfl
  have hglyph : (closeGlyphOf dialogTree).mouseUpListeners =
      [(MouseButton.left, MouseListener.onCancelClicked)] := rfl
  refine ⟨?_, ?_, ?_⟩
  · simp [Element.dispatchMouseUp, hok, h, MouseListener.run,
      DialogBox.on_ok_clicked]
  · simp [Element.dispatchMouseUp, hcancel, h, MouseListener.run,
      DialogBox.on_cancel_clicked]
  · simp [Element.dispatchMouseUp, hglyph, h, MouseListener.run,
      DialogBox.on_cancel_clicked]

/-- C2 witness: a concrete primary-button release on the OK button, on
the Cancel button and on the red close glyph each produce exactly one
termination request. -/
theorem handlers_shutdown_identical_c2_witness :
    sampleMouseUp.button = MouseButton.left ∧
    (okButtonOf dialogTree).dispatchMouseUp ⟨⟩ sampleMouseUp sampleWindow =
      (⟨⟩, sampleWindow, [Command.quit]) ∧
    (cancelButtonOf dialogTree).dispatchMouseUp ⟨⟩ sampleMouseUp
      sampleWindow = (⟨⟩, sampleWindow, [Command.quit]) ∧
    (closeGlyphOf dialogTree).dispatchMouseUp ⟨⟩ sampleMouseUp
      sampleWindow = (⟨⟩, sampleWindow, [Command.quit]) :=
  ⟨rfl, handlers_shutdown_identical_c2.2.2.2.2.2.2.2 ⟨⟩ sampleWindow
    sampleMouseUp rfl⟩

/-- C3 (divergence witness): the source registers `on_escape` through
`.on_key_down` with no key filter, and the handler body never inspects
the event, so a key-down for the key "a" — not Escape — dispatched in
the dialog's focus scope issues a termination request, while a key-down
for Escape does the same.  This contradicts the claim (and the source's
own comments, which call the listener a "keyboard event handler for ESC
key") that keys other than Escape do not trigger a shutdown request. -/
theorem keydown_any_key_quits_c3 :
    dialogTree.keyDownListeners = [KeyListener.onEscape] ∧
    dialogTree.dispatchKeyDown ⟨⟩ { key := "a" } sampleWindow =
      (⟨⟩, sampleWindow, [Command.quit]) ∧
    dialogTree.dispatchKeyDown ⟨⟩ { key := "escape" } sampleWindow =
      (⟨⟩, sampleWindow, [Command.quit]) :=
  ⟨rfl, rfl, rfl⟩

/-- C4: with zero displays enumerated, the bootstrap fails fatally
(`displays.first().unwrap()` panics) before any window-creation call is
attempted: the call trace is empty for every creation oracle. -/
theorem zero_displays_fatal_c4 (create : ℕ → Bool) :
    bootstrap [] create =
      { calls := [], outcome := BootOutcome.panicNoDisplay } :=
  rfl

/-- C5: every window-creation failure is fatal.  If the backdrop call
fails, the bootstrap aborts with exactly that one attempted call — no
retry, no dialog call.  If the backdrop call succeeds and the dialog
call fails, the bootstrap aborts right after it with exactly those two
attempted calls, even though one window was already created. -/
theorem window_creation_failure_fatal_c5 (display : Display)
    (rest : List Display) (create : ℕ → Bool) :
    (create 0 = false →
      bootstrap (display :: rest) create =
        { calls := [backdropOptions display],
          outcome := BootOutcome.panicCreateFailed }) ∧
    (create 0 = true → create 1 = false →
      bootstrap (display :: rest) create =
        { calls := [backdropOptions display, dialogOptions display],
          outcome := BootOutcome.panicCreateFailed }) := by
  constructor
  · intro h0; simp [bootstrap, h0]
  · intro h0 h1; simp [bootstrap, h0, h1]

/-- C5 witness: on a concrete display, an oracle failing the first call
aborts after one attempt, and an oracle failing only the second call
aborts after both attempts. -/
theorem window_creation_failure_fatal_c5_witness :
    ((fun _ : ℕ => false) 0 = false ∧
      bootstrap [display1920] (fun _ => false) =
        { calls := [backdropOptions display1920],
          outcome := BootOutcome.panicCreateFailed }) ∧
    ((fun i : ℕ => i == 0) 0 = true ∧ (fun i : ℕ => i == 0) 1 = false ∧
      bootstrap [display1920] (fun i => i == 0) =
        { calls := [backdropOptions display1920, dialogOptions display1920],
          outcome := BootOutcome.panicCreateFailed }) :=
  ⟨⟨rfl, (window_creation_failure_fatal_c5 display1920 []
      (fun _ => false)).1 rfl⟩,
   ⟨rfl, rfl, (window_creation_failure_fatal_c5 display1920 []
      (fun i => i == 0)).2 rfl rfl⟩⟩

/-- C6: every nonempty finite sequence of dismissal triggers, in any
order or combination, issues exactly one termination request in total,
and after termination (state `Closed`) any further sequence of
invocations issues none and changes nothing. -/
theorem single_termination_request_c6 (ts : List Trigger) (h : ts ≠ []) :
    run DialogState.Open ts = (DialogState.Closed, 1) ∧
    ∀ us : List Trigger,
      run DialogState.Closed us = (DialogState.Closed, 0) := by
  refine ⟨?_, run_closed_absorbing⟩
  cases ts with
  | nil => exact absurd rfl h
  | cons t ts => simp [run, step, trigger_commands_quit, run_closed_absorbing]

/-- C6 witness: invoking OK click, then Cancel click, then Escape yields
exactly one termination request. -/
theorem single_termination_request_c6_witness :
    ([Trigger.okClick, Trigger.cancelClick, Trigger.escapeKey] :
      List Trigger) ≠ [] ∧
    run DialogState.Open
      [Trigger.okClick, Trigger.cancelClick, Trigger.escapeKey] =
      (DialogState.Closed, 1) :=
  ⟨by decide,
   (single_termination_request_c6
     [Trigger.okClick, Trigger.cancelClick, Trigger.escapeKey]
     (by decide)).1⟩

/-- C7: whatever the creation oracle does, the first window-creation call
of the bootstrap is the backdrop window, whose placement is the full
primary-display bounds (0,0)–(w,h). -/
theorem backdrop_full_display_bounds_c7 (display : Display)
    (rest : List Display) (create : ℕ → Bool) :
    (bootstrap (display :: rest) create).calls.head? =
      some (backdropOptions display) ∧
    (backdropOptions display).window_bounds =
      some (WindowBounds.windowed
        { origin := point 0 0, size := display.bounds.size }) := by
  constructor
  · cases h0 : create 0 <;> cases h1 : create 1 <;> simp [bootstrap, h0, h1]
  · rfl

/-- C8: `render` of both `Backdrop` and `DialogBox` is a pure,
deterministic function of constant layout/style data: any two calls,
with any component values, windows and contexts, produce structurally
identical element trees. -/
theorem render_pure_deterministic_c8 :
    (∀ (b b' : Backdrop) (w w' : Window) (c c' : Context),
      Backdrop.render b w c = Backdrop.render b' w' c') ∧
    (∀ (d d' : DialogBox) (w w' : Window) (c c' : Context),
      DialogBox.render d w c = DialogBox.render d' w' c') :=
  ⟨fun _ _ _ _ _ _ => rfl, fun _ _ _ _ _ _ => rfl⟩

/-- C9: the dismissal flow is a two-state machine: from `Open`, each of
the four triggers transitions to `Closed` (issuing one termination
request), and from any state every step lands in `Closed` — `Closed` is
terminal and no step ever returns to `Open`. -/
theorem dismissal_two_state_machine_c9 :
    (∀ t : Trigger, step DialogState.Open t = (DialogState.Closed, 1)) ∧
    (∀ (s : DialogState) (t : Trigger),
      (step s t).1 = DialogState.Closed) :=
  ⟨fun t => by cases t <;> rfl, fun s _ => by cases s <;> rfl⟩

/-- C10: the centering computation is applied with no clamping: the
dialog window's bounds are exactly `dialogBoundsOf`, and whenever the
display is narrower than 460 the computed x origin is negative, and
whenever it is shorter than 180 the computed y origin is negative. -/
theorem centering_unclamped_c10 (display : Display) :
    (dialogOptions display).window_bounds =
      some (WindowBounds.windowed (dialogBoundsOf display.bounds.size)) ∧
    (display.bounds.size.width < 460 →
      (dialogBoundsOf display.bounds.size).origin.x < 0) ∧
    (display.bounds.size.height < 180 →
      (dialogBoundsOf display.bounds.size).origin.y < 0) := by
  refine ⟨rfl, ?_, ?_⟩ <;> intro h <;>
    simp [dialogBoundsOf, point, dialog_width, dialog_height, px] <;>
    linarith

/-- C10 witness: on a 320×100 display the computed dialog origin is
negative in both coordinates, so the dialog is requested partly outside
the display. -/
theorem centering_unclamped_c10_witness :
    display320.bounds.size.width < 460 ∧
    (dialogBoundsOf display320.bounds.size).origin.x < 0 ∧
    display320.bounds.size.height < 180 ∧
    (dialogBoundsOf display320.bounds.size).origin.y < 0 := by
  have h := centering_unclamped_c10 display320
  exact ⟨by norm_num [display320, size],
    h.2.1 (by norm_num [display320, size]),
    by norm_num [display320, size],
    h.2.2 (by norm_num [display320, size])⟩
